import Mathlib

/-!
Verification development for the request-dispatch core of an S3-compatible
gateway (src/s3api/controllers/base.go).  The Go handlers are embedded as
pure Lean functions over an explicit request model; each handler returns the
ordered list of backend operations it invoked together with the response it
produced (or the raw Go error it returned to the HTTP framework).
-/

namespace Versity

/-! ## Go string helpers -/

/-- ASCII-style lowercasing of a string, character by character
(models the case-insensitive header lookup of the HTTP framework). -/
def lowerStr (s : String) : String := ⟨s.data.map Char.toLower⟩

/-- Splitting a character list on every occurrence of a separator character;
models Go `strings.Split(s, sep)` for a one-character separator.
The result is always non-empty. -/
def splitChar (sep : Char) : List Char → List (List Char)
  | [] => [[]]
  | c :: cs =>
    if c = sep then [] :: splitChar sep cs
    else
      match splitChar sep cs with
      | [] => [[c]]
      | r :: rs => (c :: r) :: rs

/-- Joining character lists with a separator character;
models Go `strings.Join(parts, sep)` for a one-character separator. -/
def joinChar (sep : Char) : List (List Char) → List Char
  | [] => []
  | [x] => x
  | x :: xs => x ++ sep :: joinChar sep xs

/-- Go `strings.Split(s, sep)` for a one-character separator. -/
def goSplit (sep : Char) (s : String) : List String :=
  (splitChar sep s.data).map (fun l => ⟨l⟩)

/-- Go `strings.Join(parts, sep)` for a one-character separator. -/
def goJoin (sep : Char) (l : List String) : String :=
  ⟨joinChar sep (l.map String.data)⟩

/-- The Go expression `s[len(s)-1:] == "/"` on a non-empty string:
the last character is a slash. -/
def endsWithSlash (s : String) : Prop := s.data.getLast? = some '/'

instance (s : String) : Decidable (endsWithSlash s) :=
  inferInstanceAs (Decidable (s.data.getLast? = some '/'))

/-! ## Go integer parsing (strconv) -/

/-- Accumulator loop over decimal digits; fails on any non-digit. -/
def decDigitsAux : List Char → Nat → Option Nat
  | [], acc => some acc
  | c :: cs, acc =>
    if c.isDigit then decDigitsAux cs (acc * 10 + (c.toNat - 48)) else none

/-- A non-empty all-decimal-digit list parsed to a natural number. -/
def decDigits : List Char → Option Nat
  | [] => none
  | cs => decDigitsAux cs 0

/-- Go `strconv.ParseInt(s, 10, 64)`: optional sign, decimal digits,
64-bit signed range check.  `strconv.Atoi` on a 64-bit platform has the same
accept/reject behaviour (the gateway only uses the success value). -/
def parseInt64 (s : String) : Option Int :=
  match s.data with
  | '-' :: rest =>
    match decDigits rest with
    | none => none
    | some n => if n ≤ 2 ^ 63 then some (-(n : Int)) else none
  | '+' :: rest =>
    match decDigits rest with
    | none => none
    | some n => if n < 2 ^ 63 then some ((n : Int)) else none
  | l =>
    match decDigits l with
    | none => none
    | some n => if n < 2 ^ 63 then some ((n : Int)) else none

/-- Go `strconv.Atoi` as used by fiber's `Ctx.QueryInt` (64-bit platform). -/
def atoi (s : String) : Option Int := parseInt64 s

/-! ## Error catalog (s3err) -/

/-- The s3err.APIError value: error code string, message, HTTP status. -/
structure APIError where
  code : String
  description : String
  httpStatusCode : Nat
deriving DecidableEq, Repr

/-- The catalog error identifiers used by the dispatch core. -/
inductive ErrCode where
  | invalidRequest
  | invalidMaxParts
  | invalidPartNumberMarker
  | invalidPart
  | internalError
  | noSuchBucket
  | noSuchKey
  | bucketAlreadyExists
  | accessDenied
deriving DecidableEq, Repr

/-- Modelled from the spec: the s3err error catalog (`s3err.GetAPIError`,
not under src/) maps each error identifier to `(HTTP status, code string,
message)`; the spec fixes the statuses `InvalidRequest` 400,
`InvalidMaxParts` 400, `InvalidPartNumberMarker` 400, `InvalidPart` 400,
`NoSuchBucket` 404, `NoSuchKey` 404, `BucketAlreadyExists` 409,
`AccessDenied` 403, `InternalError` 500. -/
def getAPIError : ErrCode → APIError
  | .invalidRequest => ⟨"InvalidRequest", "Invalid Request", 400⟩
  | .invalidMaxParts => ⟨"InvalidMaxParts", "Argument max-parts must be an integer between 0 and 2147483647", 400⟩
  | .invalidPartNumberMarker => ⟨"InvalidPartNumberMarker", "Argument partNumberMarker must be an integer", 400⟩
  | .invalidPart => ⟨"InvalidPart", "One or more of the specified parts could not be found", 400⟩
  | .internalError => ⟨"InternalError", "We encountered an internal error, please try again", 500⟩
  | .noSuchBucket => ⟨"NoSuchBucket", "The specified bucket does not exist", 404⟩
  | .noSuchKey => ⟨"NoSuchKey", "The specified key does not exist", 404⟩
  | .bucketAlreadyExists => ⟨"BucketAlreadyExists", "The requested bucket name is not available", 409⟩
  | .accessDenied => ⟨"AccessDenied", "Access Denied", 403⟩

/-- Modelled from the spec: `s3err.GetAPIErrorResponse(err, "", "", "")`
(not under src/) renders the fixed S3 error XML document
`<Error><Code/><Message/><Resource/><RequestId/></Error>`. -/
def apiErrorResponse (e : APIError) : String :=
  "<?xml version=\"1.0\" encoding=\"UTF-8\"?><Error><Code>" ++ e.code ++
    "</Code><Message>" ++ e.description ++
    "</Message><Resource></Resource><RequestId></RequestId></Error>"

/-- A Go `error` value as seen by the response writers: either a typed
catalog error (`s3err.APIError`) or any other error carrying a message. -/
inductive GoError where
  | apiErr (e : APIError)
  | raw (msg : String)
deriving DecidableEq, Repr

/-! ## Response writing -/

/-- Accumulated response state of the fiber context before the response
writer runs: response headers already set, the status (fasthttp default 200)
and the body written so far. -/
structure Ctx where
  status : Nat := 200
  headers : List (String × String) := []
  body : String := ""
deriving DecidableEq, Repr

/-- What a handler ends with: either a response (status, headers, body,
plus whether an internal error was logged to stderr), or a raw Go error
returned to the HTTP framework, which then produces the response itself. -/
inductive HandlerResult where
  | sent (status : Nat) (headers : List (String × String)) (body : String)
      (loggedInternal : Bool)
  | fiberErr (msg : String)
deriving DecidableEq, Repr

/-- The response headers of a handler result (empty when the handler
returned a raw error and sent nothing itself). -/
def headersOf : HandlerResult → List (String × String)
  | .sent _ hs _ _ => hs
  | .fiberErr _ => []

/-- `SendResponse(ctx, err)` from base.go.  A catalog error sets its HTTP
status and sends the rendered error XML; any other error is logged to
stderr and the InternalError XML is sent — note the code does not touch the
status on that path, so the status stays at whatever the context held
(fasthttp default 200).  A nil error sets status 200 with the body left
as is. -/
def sendResponse (ctx : Ctx) : Option GoError → HandlerResult
  | some (.apiErr serr) =>
    .sent serr.httpStatusCode ctx.headers (apiErrorResponse serr) false
  | some (.raw _) =>
    .sent ctx.status ctx.headers (apiErrorResponse (getAPIError .internalError)) true
  | none => .sent 200 ctx.headers ctx.body false

/-- `SendXMLResponse(ctx, resp, err)` from base.go.  Error handling is the
same as `SendResponse`; on success the marshalled payload (modelled as the
already-marshalled string, `none` standing for a nil response value) is
sent, with Content-Type application/xml set only for a non-empty body. -/
def sendXMLResponse (ctx : Ctx) (resp : Option String) : Option GoError → HandlerResult
  | some (.apiErr serr) =>
    .sent serr.httpStatusCode ctx.headers (apiErrorResponse serr) false
  | some (.raw _) =>
    .sent ctx.status ctx.headers (apiErrorResponse (getAPIError .internalError)) true
  | none =>
    match resp with
    | some payload =>
      if payload ≠ "" then
        .sent ctx.status (ctx.headers ++ [("Content-Type", "application/xml")]) payload false
      else
        .sent ctx.status ctx.headers "" false
    | none => .sent ctx.status ctx.headers "" false

/-! ## Request model -/

/-- An HTTP request as the handlers observe it through the fiber context:
route parameters, query string (value lookup and presence test), headers,
URL path, body and the authenticated principal (`ctx.Locals("access")`). -/
structure Request where
  rBucket : String
  rKey : String
  rKeyEnd : String
  queryVal : String → String
  queryHas : String → Bool
  headers : List (String × String)
  path : String
  body : String
  access : String

/-- `ctx.Get(name)`: case-insensitive header lookup, empty string when the
header is missing. -/
def headerGet (r : Request) (k : String) : String :=
  match r.headers.find? (fun p => lowerStr p.1 = lowerStr k) with
  | some p => p.2
  | none => ""

/-- fiber `ctx.QueryInt(key, dflt)`: `strconv.Atoi` of the query value,
returning the default on any parse error. -/
def queryInt (r : Request) (k : String) (dflt : Int) : Int :=
  match atoi (r.queryVal k) with
  | some n => n
  | none => dflt

/-- The Content-Length handling at the top of `PutActions`: an absent
header yields 0, a present header must parse as a base-10 signed 64-bit
integer (`none` models the `ErrInvalidRequest` return). -/
def parseContentLength (s : String) : Option Int :=
  if s ≠ "" then parseInt64 s else some 0

/-- Key reconstruction shared by the object handlers:
`strings.Join([]string{key, keyEnd}, "/")` when the wildcard part is
non-empty. -/
def joinedKey (r : Request) : String :=
  if r.rKeyEnd ≠ "" then r.rKey ++ "/" ++ r.rKeyEnd else r.rKey

/-- The object key used by `PutActions`: the joined key with the
trailing-slash fix-up (`path` ends in `/` and the key does not ⇒ append
`/`). -/
def putKeyOf (r : Request) : String :=
  if endsWithSlash r.path ∧ ¬ endsWithSlash (joinedKey r) then
    joinedKey r ++ "/"
  else joinedKey r

/-- The five grant headers concatenated, as computed by
`PutBucketActions` and `PutActions`. -/
def grantsConcat (r : Request) : String :=
  headerGet r "X-Amz-Grant-Full-Control" ++ headerGet r "X-Amz-Grant-Read" ++
    headerGet r "X-Amz-Grant-Read-Acp" ++ headerGet r "X-Amz-Grant-Write" ++
    headerGet r "X-Amz-Grant-Write-Acp"

/-! ## Backend results -/

/-- A timestamp as Go renders it: the fields that the layout
`Mon, 02 Jan 2006 15:04:05 GMT` reads. -/
structure GoTime where
  weekday : Nat
  day : Nat
  month : Nat
  year : Nat
  hour : Nat
  minute : Nat
  second : Nat
deriving DecidableEq, Repr

def weekdayNames : List String := ["Sun", "Mon", "Tue", "Wed", "Thu", "Fri", "Sat"]

def monthNames : List String :=
  ["Jan", "Feb", "Mar", "Apr", "May", "Jun", "Jul", "Aug", "Sep", "Oct", "Nov", "Dec"]

/-- Two-digit zero padding, as the layout fields `02`, `15`, `04`, `05`. -/
def pad2 (n : Nat) : String := if n < 10 then "0" ++ toString n else toString n

/-- Go `t.Format(timefmt)` for `timefmt = "Mon, 02 Jan 2006 15:04:05 GMT"`. -/
def formatTimefmt (t : GoTime) : String :=
  weekdayNames.getD t.weekday "Sun" ++ ", " ++ pad2 t.day ++ " " ++
    monthNames.getD t.month "Jan" ++ " " ++ toString t.year ++ " " ++
    pad2 t.hour ++ ":" ++ pad2 t.minute ++ ":" ++ pad2 t.second ++ " GMT"

/-- `getstring` from base.go: dereference an optional string, empty when nil. -/
def getstring : Option String → String
  | none => ""
  | some s => s

/-- The header-relevant fields of the backend's GetObject/HeadObject
result. -/
structure GetObjectOutput where
  metadata : List (String × String)
  contentLength : Int
  contentType : Option String
  contentEncoding : Option String
  etag : Option String
  lastModified : Option GoTime
deriving DecidableEq, Repr

/-- A part entry of a CompleteMultipartUpload body. -/
structure Part where
  partNumber : Int
  etag : String
  size : Int
deriving DecidableEq, Repr

/-- The `<Delete>` document of a DeleteObjects request:
`(key, versionId)` entries. -/
structure DeleteDoc where
  objects : List (String × String)
deriving DecidableEq, Repr

/-- The `<RestoreRequest>` document of a RestoreObject request
(passed through opaquely by the dispatcher). -/
structure RestoreReq where
  days : Int
deriving DecidableEq, Repr

/-- One backend invocation with its arguments, as recorded by the
handlers. -/
inductive BackendCall where
  | listObjectParts (bucket key uploadId : String) (partNumberMarker maxParts : Int)
  | getObjectAcl (bucket key : String)
  | getObjectAttributes (bucket key : String) (attrs : List String)
  | getObject (bucket key acceptRange : String)
  | putBucketAcl (bucket acl gfc gr grACP gw gwACP owner : String)
  | putBucket (bucket owner : String)
  | putObjectPart (bucket key uploadId : String) (partNumber contentLength : Int) (body : String)
  | putObjectAcl (bucket key acl gfc gr grACP gw gwACP : String)
  | copyObject (srcBucket srcKey dstBucket dstKey : String)
  | putObject (bucket key : String) (contentLength : Int)
      (metadata : List (String × String)) (body : String)
  | deleteObjects (bucket : String) (doc : DeleteDoc)
  | abortMultipartUpload (bucket key uploadId expectedOwner requestPayer : String)
  | deleteObject (bucket key : String)
  | headObject (bucket key : String)
  | restoreObject (bucket key : String) (req : RestoreReq)
  | completeMultipartUpload (bucket key uploadId : String) (parts : List Part)
  | createMultipartUpload (bucket key : String)
deriving DecidableEq, Repr

/-- The pluggable backend: for each operation, the value and error it
returns.  XML-marshalled payloads are modelled as their already-marshalled
strings (`none` standing for a nil Go pointer). -/
structure Backend where
  listObjectParts : String → String → String → Int → Int → Option String × Option GoError
  getObjectAcl : String → String → Option String × Option GoError
  getObjectAttributes : String → String → List String → Option String × Option GoError
  getObject : String → String → String → Option GetObjectOutput × Option GoError
  headObject : String → String → Option GetObjectOutput × Option GoError
  putBucketAcl : String → String → String → String → String → String → String → String → Option GoError
  putBucket : String → String → Option GoError
  putObjectPart : String → String → String → Int → Int → String → String × Option GoError
  putObjectAcl : String → String → String → String → String → String → String → String → Option GoError
  copyObject : String → String → String → String → Option String × Option GoError
  putObject : String → String → Int → List (String × String) → String → String × Option GoError
  deleteObjects : String → DeleteDoc → Option GoError
  abortMultipartUpload : String → String → String → String → String → Option GoError
  deleteObject : String → String → Option GoError
  restoreObject : String → String → RestoreReq → Option GoError
  completeMultipartUpload : String → String → String → List Part → Option String × Option GoError
  createMultipartUpload : String → String → Option String × Option GoError

/-- A handler's observable outcome: the backend calls it made, in order,
and the result it produced. -/
structure Outcome where
  calls : List BackendCall
  result : HandlerResult
deriving DecidableEq, Repr

/-! ## Header codec (s3api/utils, modelled from the spec) -/

/-- Modelled from the spec: `utils.SetMetaHeaders` (src/s3api/utils is not
under src/) — for each user-metadata entry, write the header
`x-amz-meta-{suffix}: {value}`. -/
def metaHeaders (md : List (String × String)) : List (String × String) :=
  md.map (fun p => ("x-amz-meta-" ++ p.1, p.2))

/-- Modelled from the spec: `utils.GetUserMetaData` (src/s3api/utils is not
under src/) — for each request header whose name, case-insensitively,
starts with `x-amz-meta-`, record the lowercased suffix with the value. -/
def getUserMetaData (hs : List (String × String)) : List (String × String) :=
  (hs.filter (fun p => ("x-amz-meta-".data).isPrefixOf (lowerStr p.1).data)).map
    (fun p => (⟨(lowerStr p.1).data.drop 11⟩, p.2))

/-- The fixed standard-header block that GetObject and HeadObject emit via
`utils.SetResponseHeaders`; modelled from the spec, which has the codec
write nullable fields as empty strings to preserve header presence. -/
def stdHeaders (o : GetObjectOutput) : List (String × String) :=
  [("Content-Length", toString o.contentLength),
   ("Content-Type", getstring o.contentType),
   ("Content-Encoding", getstring o.contentEncoding),
   ("ETag", getstring o.etag),
   ("Last-Modified",
     match o.lastModified with
     | some t => formatTimefmt t
     | none => "")]

/-! ## Handlers -/

/-- `GetActions` (object-scope GET) from base.go. -/
def GetActions (be : Backend) (r : Request) : Outcome :=
  let bucket := r.rBucket
  let key := joinedKey r
  let uploadId := r.queryVal "uploadId"
  let maxParts := queryInt r "max-parts" 0
  let partNumberMarker := queryInt r "part-number-marker" 0
  let acceptRange := headerGet r "Range"
  if uploadId ≠ "" then
    if maxParts < 0 ∨ (maxParts = 0 ∧ r.queryVal "max-parts" ≠ "") then
      ⟨[], sendResponse {} (some (.apiErr (getAPIError .invalidMaxParts)))⟩
    else if partNumberMarker < 0 ∨ (partNumberMarker = 0 ∧ r.queryVal "part-number-marker" ≠ "") then
      ⟨[], sendResponse {} (some (.apiErr (getAPIError .invalidPartNumberMarker)))⟩
    else
      let res := be.listObjectParts bucket key uploadId partNumberMarker maxParts
      ⟨[.listObjectParts bucket key uploadId partNumberMarker maxParts],
        sendXMLResponse {} res.1 res.2⟩
  else if r.queryHas "acl" then
    let res := be.getObjectAcl bucket key
    ⟨[.getObjectAcl bucket key], sendXMLResponse {} res.1 res.2⟩
  else if headerGet r "X-Amz-Object-Attributes" ≠ "" then
    let attrs := goSplit ',' (headerGet r "X-Amz-Object-Attributes")
    let res := be.getObjectAttributes bucket key attrs
    ⟨[.getObjectAttributes bucket key attrs], sendXMLResponse {} res.1 res.2⟩
  else
    let res := be.getObject bucket key acceptRange
    match res.2 with
    | some e => ⟨[.getObject bucket key acceptRange], sendResponse {} (some e)⟩
    | none =>
      match res.1 with
      | none =>
        ⟨[.getObject bucket key acceptRange],
          sendResponse {} (some (.raw "get object nil response"))⟩
      | some o =>
        ⟨[.getObject bucket key acceptRange],
          .sent 200 (metaHeaders o.metadata ++ stdHeaders o) "" false⟩

/-- `PutBucketActions` (PUT on /{bucket}) from base.go. -/
def PutBucketActions (be : Backend) (r : Request) : Outcome :=
  let bucket := r.rBucket
  let acl := headerGet r "X-Amz-Acl"
  let gfc := headerGet r "X-Amz-Grant-Full-Control"
  let gr := headerGet r "X-Amz-Grant-Read"
  let grACP := headerGet r "X-Amz-Grant-Read-Acp"
  let gw := headerGet r "X-Amz-Grant-Write"
  let gwACP := headerGet r "X-Amz-Grant-Write-Acp"
  let owner := r.access
  let grants := grantsConcat r
  if grants ≠ "" ∨ acl ≠ "" then
    if grants ≠ "" ∧ acl ≠ "" then
      ⟨[], .fiberErr "wrong api call"⟩
    else
      let err := be.putBucketAcl bucket acl gfc gr grACP gw gwACP owner
      ⟨[.putBucketAcl bucket acl gfc gr grACP gw gwACP owner], sendResponse {} err⟩
  else
    ⟨[.putBucket bucket owner], sendResponse {} (be.putBucket bucket owner)⟩

/-- `PutActions` (PUT on /{bucket}/{key...}) from base.go. -/
def PutActions (be : Backend) (r : Request) : Outcome :=
  let bucket := r.rBucket
  let uploadId := r.queryVal "uploadId"
  let partNumberStr := r.queryVal "partNumber"
  let copySource := headerGet r "X-Amz-Copy-Source"
  let acl := headerGet r "X-Amz-Acl"
  let gfc := headerGet r "X-Amz-Grant-Full-Control"
  let gr := headerGet r "X-Amz-Grant-Read"
  let grACP := headerGet r "X-Amz-Grant-Read-Acp"
  let gw := headerGet r "X-Amz-Grant-Write"
  let gwACP := headerGet r "X-Amz-Grant-Write-Acp"
  let grants := grantsConcat r
  let keyStart := putKeyOf r
  match parseContentLength (headerGet r "Content-Length") with
  | none => ⟨[], sendResponse {} (some (.apiErr (getAPIError .invalidRequest)))⟩
  | some contentLength =>
    if uploadId ≠ "" ∧ partNumberStr ≠ "" then
      let partNumber := queryInt r "partNumber" (-1)
      if partNumber < 1 then
        ⟨[], sendResponse {} (some (.apiErr (getAPIError .invalidPart)))⟩
      else
        let res := be.putObjectPart bucket keyStart uploadId partNumber contentLength r.body
        ⟨[.putObjectPart bucket keyStart uploadId partNumber contentLength r.body],
          sendResponse { headers := [("Etag", res.1)] } res.2⟩
    else if grants ≠ "" ∨ acl ≠ "" then
      if grants ≠ "" ∧ acl ≠ "" then
        ⟨[], .fiberErr "wrong api call"⟩
      else
        let err := be.putObjectAcl bucket keyStart acl gfc gr grACP gw gwACP
        ⟨[.putObjectAcl bucket keyStart acl gfc gr grACP gw gwACP], sendResponse {} err⟩
    else if copySource ≠ "" then
      let copySourceSplit := goSplit '/' copySource
      let srcBucket := copySourceSplit.headD ""
      let srcObject := goJoin '/' copySourceSplit.tail
      let res := be.copyObject srcBucket srcObject bucket keyStart
      ⟨[.copyObject srcBucket srcObject bucket keyStart], sendXMLResponse {} res.1 res.2⟩
    else
      let metadata := getUserMetaData r.headers
      let res := be.putObject bucket keyStart contentLength metadata r.body
      ⟨[.putObject bucket keyStart contentLength metadata r.body],
        sendResponse { headers := [("ETag", res.1)] } res.2⟩

/-- `DeleteActions` (DELETE on /{bucket}/{key...}) from base.go. -/
def DeleteActions (be : Backend) (r : Request) : Outcome :=
  let bucket := r.rBucket
  let key := joinedKey r
  let uploadId := r.queryVal "uploadId"
  if uploadId ≠ "" then
    let ebo := headerGet r "X-Amz-Expected-Bucket-Owner"
    let rp := headerGet r "X-Amz-Request-Payer"
    ⟨[.abortMultipartUpload bucket key uploadId ebo rp],
      sendResponse {} (be.abortMultipartUpload bucket key uploadId ebo rp)⟩
  else
    ⟨[.deleteObject bucket key], sendResponse {} (be.deleteObject bucket key)⟩

/-- `DeleteObjects` (DELETE on /{bucket} with a `<Delete>` body) from
base.go.  `parsed` is the result of `xml.Unmarshal(ctx.Body(), &dObj)`
(the Go standard library is external to the repository); `none` models the
unmarshal failing. -/
def DeleteObjectsH (be : Backend) (r : Request) (parsed : Option DeleteDoc) : Outcome :=
  match parsed with
  | none => ⟨[], .fiberErr "wrong api call"⟩
  | some dObj =>
    ⟨[.deleteObjects r.rBucket dObj], sendResponse {} (be.deleteObjects r.rBucket dObj)⟩

/-- `HeadObject` from base.go. -/
def HeadObject (be : Backend) (r : Request) : Outcome :=
  let bucket := r.rBucket
  let key := joinedKey r
  let res := be.headObject bucket key
  match res.2 with
  | some e => ⟨[.headObject bucket key], sendResponse {} (some e)⟩
  | none =>
    match res.1 with
    | none =>
      ⟨[.headObject bucket key], sendResponse {} (some (.raw "head object nil response"))⟩
    | some o =>
      ⟨[.headObject bucket key],
        sendResponse { headers := metaHeaders o.metadata ++ stdHeaders o } none⟩

/-- `CreateActions` (POST on /{bucket}/{key...}) from base.go.
`restoreParsed` and `partsParsed` are the results of the two
`xml.Unmarshal` calls on the request body (the Go standard library is
external to the repository); `none` models the respective unmarshal
failing.  Each is only consulted in the branch that performs that
unmarshal, as in the source. -/
def CreateActions (be : Backend) (r : Request) (restoreParsed : Option RestoreReq)
    (partsParsed : Option (List Part)) : Outcome :=
  let bucket := r.rBucket
  let key := joinedKey r
  let uploadId := r.queryVal "uploadId"
  if r.queryHas "restore" then
    match restoreParsed with
    | none => ⟨[], .fiberErr "wrong api call"⟩
    | some req =>
      ⟨[.restoreObject bucket key req], sendResponse {} (be.restoreObject bucket key req)⟩
  else if uploadId ≠ "" then
    match partsParsed with
    | none => ⟨[], .fiberErr "wrong api call"⟩
    | some parts =>
      let res := be.completeMultipartUpload bucket key uploadId parts
      ⟨[.completeMultipartUpload bucket key uploadId parts], sendXMLResponse {} res.1 res.2⟩
  else
    let res := be.createMultipartUpload bucket key
    ⟨[.createMultipartUpload bucket key], sendXMLResponse {} res.1 res.2⟩

/-! ## Route parameter extraction (host router, modelled from the spec) -/

/-- Modelled from the spec: the host HTTP router (external to the supplied
core) matches object routes `/:bucket/:key/*` and populates
`Params("bucket")`, `Params("key")` — the first path segment after the
bucket — and `Params("*1")` — the raw remainder of the path after
`/{bucket}/{key}/`, which may itself end in `/`; a path with no remainder
(including a lone trailing `/`) yields an empty wildcard.  Returns `none`
when the path does not match an object route. -/
def routeParams (path : String) : Option (String × String × String) :=
  match goSplit '/' path with
  | "" :: bucket :: key :: rest =>
    if key = "" then none else some (bucket, key, goJoin '/' rest)
  | _ => none

/-- A request assembled from a URL path via `routeParams` plus the other
request data. -/
def requestForPath (path : String) (q : String → String) (qh : String → Bool)
    (hs : List (String × String)) (body acc : String) : Option Request :=
  (routeParams path).map (fun t =>
    { rBucket := t.1, rKey := t.2.1, rKeyEnd := t.2.2, queryVal := q, queryHas := qh,
      headers := hs, path := path, body := body, access := acc })

/-! ## Basic lemmas -/

theorem string_append_eq_empty_iff (a b : String) : a ++ b = "" ↔ a = "" ∧ b = "" := by
  cases a with
  | mk la =>
    cases b with
    | mk lb =>
      constructor
      · intro hc
        have hd : la ++ lb = ([] : List Char) := congrArg String.data hc
        rcases List.append_eq_nil.mp hd with ⟨h1, h2⟩
        subst h1; subst h2; exact ⟨rfl, rfl⟩
      · rintro ⟨h1, h2⟩
        rw [h1, h2]; rfl

theorem grantsConcat_ne_empty (r : Request)
    (h : headerGet r "X-Amz-Grant-Full-Control" ≠ "" ∨ headerGet r "X-Amz-Grant-Read" ≠ "" ∨
      headerGet r "X-Amz-Grant-Read-Acp" ≠ "" ∨ headerGet r "X-Amz-Grant-Write" ≠ "" ∨
      headerGet r "X-Amz-Grant-Write-Acp" ≠ "") :
    grantsConcat r ≠ "" := by
  intro hc
  unfold grantsConcat at hc
  simp only [string_append_eq_empty_iff] at hc
  obtain ⟨⟨⟨⟨h1, h2⟩, h3⟩, h4⟩, h5⟩ := hc
  rcases h with h | h | h | h | h
  · exact h h1
  · exact h h2
  · exact h h3
  · exact h h4
  · exact h h5

theorem headersOf_sendResponse (ctx : Ctx) (e : Option GoError) :
    headersOf (sendResponse ctx e) = ctx.headers := by
  cases e with
  | none => rfl
  | some g =>
    cases g with
    | apiErr a => rfl
    | raw m => rfl

/-! ## Branch characterizations of the PUT handlers -/

theorem putActions_clErr (be : Backend) (r : Request)
    (h : parseContentLength (headerGet r "Content-Length") = none) :
    PutActions be r = ⟨[], sendResponse {} (some (.apiErr (getAPIError .invalidRequest)))⟩ := by
  unfold PutActions
  rw [h]

theorem putActions_partBad (be : Backend) (r : Request) (cl : Int)
    (hCL : parseContentLength (headerGet r "Content-Length") = some cl)
    (hU : r.queryVal "uploadId" ≠ "") (hP : r.queryVal "partNumber" ≠ "")
    (hpn : queryInt r "partNumber" (-1) < 1) :
    PutActions be r = ⟨[], sendResponse {} (some (.apiErr (getAPIError .invalidPart)))⟩ := by
  dsimp only [PutActions]
  rw [hCL]
  dsimp only
  rw [if_pos ⟨hU, hP⟩, if_pos hpn]

theorem putActions_partCall (be : Backend) (r : Request) (cl : Int)
    (hCL : parseContentLength (headerGet r "Content-Length") = some cl)
    (hU : r.queryVal "uploadId" ≠ "") (hP : r.queryVal "partNumber" ≠ "")
    (hpn : ¬ queryInt r "partNumber" (-1) < 1) :
    PutActions be r =
      ⟨[.putObjectPart r.rBucket (putKeyOf r) (r.queryVal "uploadId")
          (queryInt r "partNumber" (-1)) cl r.body],
        sendResponse
          { headers := [("Etag",
              (be.putObjectPart r.rBucket (putKeyOf r) (r.queryVal "uploadId")
                (queryInt r "partNumber" (-1)) cl r.body).1)] }
          (be.putObjectPart r.rBucket (putKeyOf r) (r.queryVal "uploadId")
            (queryInt r "partNumber" (-1)) cl r.body).2⟩ := by
  dsimp only [PutActions]
  rw [hCL]
  dsimp only
  rw [if_pos ⟨hU, hP⟩, if_neg hpn]

theorem putActions_aclBoth (be : Backend) (r : Request) (cl : Int)
    (hCL : parseContentLength (headerGet r "Content-Length") = some cl)
    (hnp : ¬ (r.queryVal "uploadId" ≠ "" ∧ r.queryVal "partNumber" ≠ ""))
    (hg : grantsConcat r ≠ "") (hacl : headerGet r "X-Amz-Acl" ≠ "") :
    PutActions be r = ⟨[], .fiberErr "wrong api call"⟩ := by
  dsimp only [PutActions]
  rw [hCL]
  dsimp only
  rw [if_neg hnp, if_pos (Or.inl hg), if_pos ⟨hg, hacl⟩]

theorem putActions_copyCall (be : Backend) (r : Request) (cl : Int)
    (hCL : parseContentLength (headerGet r "Content-Length") = some cl)
    (hnp : ¬ (r.queryVal "uploadId" ≠ "" ∧ r.queryVal "partNumber" ≠ ""))
    (hg : grantsConcat r = "") (hacl : headerGet r "X-Amz-Acl" = "")
    (hcs : headerGet r "X-Amz-Copy-Source" ≠ "") :
    PutActions be r =
      ⟨[.copyObject ((goSplit '/' (headerGet r "X-Amz-Copy-Source")).headD "")
          (goJoin '/' (goSplit '/' (headerGet r "X-Amz-Copy-Source")).tail)
          r.rBucket (putKeyOf r)],
        sendXMLResponse {}
          (be.copyObject ((goSplit '/' (headerGet r "X-Amz-Copy-Source")).headD "")
            (goJoin '/' (goSplit '/' (headerGet r "X-Amz-Copy-Source")).tail)
            r.rBucket (putKeyOf r)).1
          (be.copyObject ((goSplit '/' (headerGet r "X-Amz-Copy-Source")).headD "")
            (goJoin '/' (goSplit '/' (headerGet r "X-Amz-Copy-Source")).tail)
            r.rBucket (putKeyOf r)).2⟩ := by
  dsimp only [PutActions]
  rw [hCL]
  dsimp only
  rw [if_neg hnp, if_neg (by simp [hg, hacl]), if_pos hcs]

theorem putActions_putCall (be : Backend) (r : Request) (cl : Int)
    (hCL : parseContentLength (headerGet r "Content-Length") = some cl)
    (hnp : ¬ (r.queryVal "uploadId" ≠ "" ∧ r.queryVal "partNumber" ≠ ""))
    (hg : grantsConcat r = "") (hacl : headerGet r "X-Amz-Acl" = "")
    (hcs : headerGet r "X-Amz-Copy-Source" = "") :
    PutActions be r =
      ⟨[.putObject r.rBucket (putKeyOf r) cl (getUserMetaData r.headers) r.body],
        sendResponse
          { headers := [("ETag",
              (be.putObject r.rBucket (putKeyOf r) cl (getUserMetaData r.headers) r.body).1)] }
          (be.putObject r.rBucket (putKeyOf r) cl (getUserMetaData r.headers) r.body).2⟩ := by
  dsimp only [PutActions]
  rw [hCL]
  dsimp only
  rw [if_neg hnp, if_neg (by simp [hg, hacl]), if_neg (by simp [hcs])]

theorem putBucketActions_aclBoth (be : Backend) (r : Request)
    (hg : grantsConcat r ≠ "") (hacl : headerGet r "X-Amz-Acl" ≠ "") :
    PutBucketActions be r = ⟨[], .fiberErr "wrong api call"⟩ := by
  dsimp only [PutBucketActions]
  rw [if_pos (Or.inl hg), if_pos ⟨hg, hacl⟩]

/-! ## Concrete witness material -/

def qNone : String → String := fun _ => ""

def qhNone : String → Bool := fun _ => false

def outTriv : GetObjectOutput :=
  { metadata := [], contentLength := 0, contentType := none, contentEncoding := none,
    etag := none, lastModified := none }

def beTriv : Backend :=
  { listObjectParts := fun _ _ _ _ _ => (some "<ListPartsResult/>", none),
    getObjectAcl := fun _ _ => (some "<AccessControlPolicy/>", none),
    getObjectAttributes := fun _ _ _ => (some "<GetObjectAttributesResponse/>", none),
    getObject := fun _ _ _ => (some outTriv, none),
    headObject := fun _ _ => (some outTriv, none),
    putBucketAcl := fun _ _ _ _ _ _ _ _ => none,
    putBucket := fun _ _ => none,
    putObjectPart := fun _ _ _ _ _ _ => ("etag-part", none),
    putObjectAcl := fun _ _ _ _ _ _ _ _ => none,
    copyObject := fun _ _ _ _ => (some "<CopyObjectResult/>", none),
    putObject := fun _ _ _ _ _ => ("etag-object", none),
    deleteObjects := fun _ _ => none,
    abortMultipartUpload := fun _ _ _ _ _ => none,
    deleteObject := fun _ _ => none,
    restoreObject := fun _ _ _ => none,
    completeMultipartUpload := fun _ _ _ _ => (some "<CompleteMultipartUploadResult/>", none),
    createMultipartUpload := fun _ _ => (some "<InitiateMultipartUploadResult/>", none) }

def rC1 : Request :=
  { rBucket := "b1", rKey := "k1", rKeyEnd := "", queryVal := qNone, queryHas := qhNone,
    headers := [("X-Amz-Acl", "private"), ("X-Amz-Grant-Read", "id=alice")],
    path := "/b1/k1", body := "", access := "root" }

def rC2 : Request :=
  { rBucket := "b1", rKey := "k1", rKeyEnd := "",
    queryVal := fun k => if k = "uploadId" then "U" else if k = "partNumber" then "3" else "",
    queryHas := qhNone, headers := [("Content-Length", "3")], path := "/b1/k1",
    body := "abc", access := "root" }

def rC9 : Request :=
  { rBucket := "b1", rKey := "k1", rKeyEnd := "", queryVal := qNone, queryHas := qhNone,
    headers := [("Content-Length", "abc")], path := "/b1/k1", body := "", access := "root" }

/-! ## Claims -/

/-- Claim C1: for every PUT on /{bucket} (PutBucketActions) and every PUT on
/{bucket}/{key...} outside the uploadId+partNumber branch (PutActions), if
the canned-ACL header X-Amz-Acl and at least one x-amz-grant-* header are
both non-empty, the handler produces a protocol error — the raw
"wrong api call" error, or, when Content-Length is additionally
unparseable, the InvalidRequest catalog error — and invokes no backend
operation. -/
theorem C1_acl_grant_conflict (be : Backend) (r : Request)
    (hacl : headerGet r "X-Amz-Acl" ≠ "")
    (hgr : headerGet r "X-Amz-Grant-Full-Control" ≠ "" ∨ headerGet r "X-Amz-Grant-Read" ≠ "" ∨
      headerGet r "X-Amz-Grant-Read-Acp" ≠ "" ∨ headerGet r "X-Amz-Grant-Write" ≠ "" ∨
      headerGet r "X-Amz-Grant-Write-Acp" ≠ "")
    (hnp : ¬ (r.queryVal "uploadId" ≠ "" ∧ r.queryVal "partNumber" ≠ "")) :
    PutBucketActions be r = ⟨[], .fiberErr "wrong api call"⟩ ∧
    (PutActions be r).calls = [] ∧
    ((PutActions be r).result = .fiberErr "wrong api call" ∨
      (PutActions be r).result = sendResponse {} (some (.apiErr (getAPIError .invalidRequest)))) := by
  have hg : grantsConcat r ≠ "" := grantsConcat_ne_empty r hgr
  refine ⟨putBucketActions_aclBoth be r hg hacl, ?_⟩
  cases hCL : parseContentLength (headerGet r "Content-Length") with
  | none =>
    rw [putActions_clErr be r hCL]
    exact ⟨rfl, Or.inr rfl⟩
  | some cl =>
    rw [putActions_aclBoth be r cl hCL hnp hg hacl]
    exact ⟨rfl, Or.inl rfl⟩

/-- Witness for C1: PUT with X-Amz-Acl: private and X-Amz-Grant-Read:
id=alice fails with the raw "wrong api call" error on both handlers and
calls no backend operation. -/
theorem C1_witness :
    headerGet rC1 "X-Amz-Acl" = "private" ∧
    PutBucketActions beTriv rC1 = ⟨[], .fiberErr "wrong api call"⟩ ∧
    (PutActions beTriv rC1).calls = [] := by
  have h := C1_acl_grant_conflict beTriv rC1 (by decide) (Or.inr (Or.inl (by decide))) (by decide)
  exact ⟨by decide, h.1, h.2.1⟩

/-- Claim C2: for every PUT on /{bucket}/{key...} with non-empty uploadId
and partNumber query parameters (and a Content-Length that is absent or
parses, with parsed value cl): if partNumber parses (strconv.Atoi) as an
integer n ≥ 1 the dispatcher calls exactly PutObjectPart with the bucket,
the reconstructed key, the uploadId, n, cl and the request body, and the
backend's etag is echoed in the ETag (written "Etag") response header; if
partNumber does not parse as an integer ≥ 1 the response is the
InvalidPart catalog error and no backend call is made. -/
theorem C2_put_object_part (be : Backend) (r : Request) (cl : Int)
    (hCL : parseContentLength (headerGet r "Content-Length") = some cl)
    (hU : r.queryVal "uploadId" ≠ "") (hP : r.queryVal "partNumber" ≠ "") :
    (∀ n : Int, atoi (r.queryVal "partNumber") = some n → 1 ≤ n →
      (PutActions be r).calls =
        [.putObjectPart r.rBucket (putKeyOf r) (r.queryVal "uploadId") n cl r.body] ∧
      ("Etag",
        (be.putObjectPart r.rBucket (putKeyOf r) (r.queryVal "uploadId") n cl r.body).1) ∈
        headersOf (PutActions be r).result) ∧
    ((∀ n : Int, atoi (r.queryVal "partNumber") = some n → n < 1) →
      PutActions be r = ⟨[], sendResponse {} (some (.apiErr (getAPIError .invalidPart)))⟩) := by
  constructor
  · intro n hn h1
    have hq : queryInt r "partNumber" (-1) = n := by
      unfold queryInt
      rw [hn]
    have hpn : ¬ queryInt r "partNumber" (-1) < 1 := by
      rw [hq]
      exact not_lt.mpr h1
    have hres := putActions_partCall be r cl hCL hU hP hpn
    rw [hres, hq]
    refine ⟨rfl, ?_⟩
    dsimp only
    rw [headersOf_sendResponse]
    exact List.mem_singleton.mpr rfl
  · intro hlt
    have hpn : queryInt r "partNumber" (-1) < 1 := by
      unfold queryInt
      cases hc : atoi (r.queryVal "partNumber") with
      | none => norm_num
      | some n => exact hlt n hc
    exact putActions_partBad be r cl hCL hU hP hpn

/-- Witness for C2: PUT /b1/k1?uploadId=U&partNumber=3 with
Content-Length: 3 and body "abc" invokes exactly
PutObjectPart("b1","k1","U",3,3,"abc") and echoes the backend etag in the
ETag header. -/
theorem C2_witness :
    (PutActions beTriv rC2).calls = [.putObjectPart "b1" "k1" "U" 3 3 "abc"] ∧
    ("Etag", "etag-part") ∈ headersOf (PutActions beTriv rC2).result := by
  have h := (C2_put_object_part beTriv rC2 3 (by decide) (by decide) (by decide)).1 3
    (by decide) (by decide)
  exact ⟨h.1.trans (by decide), h.2⟩

/-- Claim C9: in PutActions the Content-Length header is parsed before any
branch of the dispatch ladder runs: a non-empty Content-Length that does
not parse as a base-10 signed 64-bit integer yields the InvalidRequest
catalog error and no backend call, whatever the other query parameters and
headers are (so also for would-be PutObjectAcl or CopyObject requests);
an absent Content-Length defaults to 0, which reaches the backend, e.g.
as PutObject's contentLength. -/
theorem C9_content_length_first (be : Backend) (r : Request) :
    (headerGet r "Content-Length" ≠ "" → parseInt64 (headerGet r "Content-Length") = none →
      PutActions be r = ⟨[], sendResponse {} (some (.apiErr (getAPIError .invalidRequest)))⟩) ∧
    (headerGet r "Content-Length" = "" →
      grantsConcat r = "" → headerGet r "X-Amz-Acl" = "" →
      headerGet r "X-Amz-Copy-Source" = "" →
      ¬ (r.queryVal "uploadId" ≠ "" ∧ r.queryVal "partNumber" ≠ "") →
      (PutActions be r).calls =
        [.putObject r.rBucket (putKeyOf r) 0 (getUserMetaData r.headers) r.body]) := by
  constructor
  · intro hne hbad
    apply putActions_clErr
    unfold parseContentLength
    rw [if_pos hne, hbad]
  · intro hempty hg hacl hcs hnp
    have hCL : parseContentLength (headerGet r "Content-Length") = some 0 := by
      unfold parseContentLength
      rw [hempty]
      norm_num
    rw [putActions_putCall be r 0 hCL hnp hg hacl hcs]

/-- Witness for C9: PUT with Content-Length: abc (unparseable) yields the
InvalidRequest catalog error and no backend call. -/
theorem C9_witness :
    parseInt64 "abc" = none ∧
    PutActions beTriv rC9 = ⟨[], sendResponse {} (some (.apiErr (getAPIError .invalidRequest)))⟩ :=
  ⟨by decide, (C9_content_length_first beTriv rC9).1 (by decide) (by decide)⟩

/-! ## Query integer helpers -/

theorem queryInt_eq_none (r : Request) (k : String) (dflt : Int)
    (h : atoi (r.queryVal k) = none) : queryInt r k dflt = dflt := by
  unfold queryInt
  rw [h]

theorem queryInt_eq_some (r : Request) (k : String) (dflt n : Int)
    (h : atoi (r.queryVal k) = some n) : queryInt r k dflt = n := by
  unfold queryInt
  rw [h]

theorem atoi_split (s : String) : atoi s = none ∨ ∃ n, atoi s = some n := by
  cases atoi s with
  | none => exact Or.inl rfl
  | some n => exact Or.inr ⟨n, rfl⟩

/-- The validation test of GetActions (`x < 0 || (x == 0 && raw != "")`)
holds exactly when the raw query value is non-empty and does not parse
(strconv.Atoi) as an integer ≥ 1. -/
theorem queryInt_bad_iff (r : Request) (k : String) :
    (queryInt r k 0 < 0 ∨ (queryInt r k 0 = 0 ∧ r.queryVal k ≠ "")) ↔
      (r.queryVal k ≠ "" ∧ ∀ n : Int, atoi (r.queryVal k) = some n → n < 1) := by
  rcases atoi_split (r.queryVal k) with hc | ⟨n, hc⟩
  · rw [queryInt_eq_none r k 0 hc]
    constructor
    · rintro (h | ⟨_, hne⟩)
      · omega
      · refine ⟨hne, fun n hn => ?_⟩
        rw [hc] at hn
        exact Option.noConfusion hn
    · rintro ⟨hne, _⟩
      exact Or.inr ⟨rfl, hne⟩
  · rw [queryInt_eq_some r k 0 n hc]
    have hne : r.queryVal k ≠ "" := by
      intro he
      rw [he] at hc
      rw [show atoi "" = none from rfl] at hc
      exact Option.noConfusion hc
    constructor
    · rintro (h | ⟨h0, _⟩) <;>
      · refine ⟨hne, fun m hm => ?_⟩
        rw [hc] at hm
        injection hm with h2
        omega
    · rintro ⟨_, hall⟩
      have hn1 : n < 1 := hall n hc
      by_cases hn0 : n = 0
      · exact Or.inr ⟨hn0, hne⟩
      · exact Or.inl (by omega)

theorem queryInt_good (r : Request) (k : String)
    (h : r.queryVal k = "" ∨ ∃ n, atoi (r.queryVal k) = some n ∧ 1 ≤ n) :
    ¬ (queryInt r k 0 < 0 ∨ (queryInt r k 0 = 0 ∧ r.queryVal k ≠ "")) := by
  rw [queryInt_bad_iff]
  rintro ⟨hne, hall⟩
  rcases h with he | ⟨n, hn, h1⟩
  · exact hne he
  · exact absurd h1 (not_le.mpr (hall n hn))

/-! ## Branch characterizations of GetActions, DeleteActions, CreateActions -/

theorem getActions_maxPartsBad (be : Backend) (r : Request)
    (hU : r.queryVal "uploadId" ≠ "")
    (hmp : queryInt r "max-parts" 0 < 0 ∨
      (queryInt r "max-parts" 0 = 0 ∧ r.queryVal "max-parts" ≠ "")) :
    GetActions be r = ⟨[], sendResponse {} (some (.apiErr (getAPIError .invalidMaxParts)))⟩ := by
  dsimp only [GetActions]
  rw [if_pos hU, if_pos hmp]

theorem getActions_markerBad (be : Backend) (r : Request)
    (hU : r.queryVal "uploadId" ≠ "")
    (hmp : ¬ (queryInt r "max-parts" 0 < 0 ∨
      (queryInt r "max-parts" 0 = 0 ∧ r.queryVal "max-parts" ≠ "")))
    (hpm : queryInt r "part-number-marker" 0 < 0 ∨
      (queryInt r "part-number-marker" 0 = 0 ∧ r.queryVal "part-number-marker" ≠ "")) :
    GetActions be r = ⟨[], sendResponse {} (some (.apiErr (getAPIError .invalidPartNumberMarker)))⟩ := by
  dsimp only [GetActions]
  rw [if_pos hU, if_neg hmp, if_pos hpm]

theorem getActions_listParts (be : Backend) (r : Request)
    (hU : r.queryVal "uploadId" ≠ "")
    (hmp : ¬ (queryInt r "max-parts" 0 < 0 ∨
      (queryInt r "max-parts" 0 = 0 ∧ r.queryVal "max-parts" ≠ "")))
    (hpm : ¬ (queryInt r "part-number-marker" 0 < 0 ∨
      (queryInt r "part-number-marker" 0 = 0 ∧ r.queryVal "part-number-marker" ≠ ""))) :
    GetActions be r =
      ⟨[.listObjectParts r.rBucket (joinedKey r) (r.queryVal "uploadId")
          (queryInt r "part-number-marker" 0) (queryInt r "max-parts" 0)],
        sendXMLResponse {}
          (be.listObjectParts r.rBucket (joinedKey r) (r.queryVal "uploadId")
            (queryInt r "part-number-marker" 0) (queryInt r "max-parts" 0)).1
          (be.listObjectParts r.rBucket (joinedKey r) (r.queryVal "uploadId")
            (queryInt r "part-number-marker" 0) (queryInt r "max-parts" 0)).2⟩ := by
  dsimp only [GetActions]
  rw [if_pos hU, if_neg hmp, if_neg hpm]

theorem getActions_aclCall (be : Backend) (r : Request)
    (hU0 : r.queryVal "uploadId" = "") (hacl : r.queryHas "acl" = true) :
    GetActions be r =
      ⟨[.getObjectAcl r.rBucket (joinedKey r)],
        sendXMLResponse {} (be.getObjectAcl r.rBucket (joinedKey r)).1
          (be.getObjectAcl r.rBucket (joinedKey r)).2⟩ := by
  dsimp only [GetActions]
  rw [if_neg (by simp [hU0]), if_pos hacl]

theorem getActions_plain_calls (be : Backend) (r : Request)
    (hU0 : r.queryVal "uploadId" = "")
    (hacl : r.queryHas "acl" = false) (hattr : headerGet r "X-Amz-Object-Attributes" = "") :
    (GetActions be r).calls = [.getObject r.rBucket (joinedKey r) (headerGet r "Range")] := by
  dsimp only [GetActions]
  rw [if_neg (by simp [hU0]), if_neg (by simp [hacl]), if_neg (by simp [hattr])]
  cases (be.getObject r.rBucket (joinedKey r) (headerGet r "Range")).2 with
  | some e => rfl
  | none =>
    cases (be.getObject r.rBucket (joinedKey r) (headerGet r "Range")).1 with
    | none => rfl
    | some o => rfl

theorem deleteActions_deleteObject (be : Backend) (r : Request)
    (hU0 : r.queryVal "uploadId" = "") :
    DeleteActions be r =
      ⟨[.deleteObject r.rBucket (joinedKey r)],
        sendResponse {} (be.deleteObject r.rBucket (joinedKey r))⟩ := by
  dsimp only [DeleteActions]
  rw [if_neg (by simp [hU0])]

theorem createActions_create (be : Backend) (r : Request)
    (rp : Option RestoreReq) (pp : Option (List Part))
    (hres : r.queryHas "restore" = false) (hU0 : r.queryVal "uploadId" = "") :
    CreateActions be r rp pp =
      ⟨[.createMultipartUpload r.rBucket (joinedKey r)],
        sendXMLResponse {} (be.createMultipartUpload r.rBucket (joinedKey r)).1
          (be.createMultipartUpload r.rBucket (joinedKey r)).2⟩ := by
  dsimp only [CreateActions]
  rw [if_neg (by simp [hres]), if_neg (by simp [hU0])]

/-! ## More claims -/

/-- Claim C3 (evaluation of the response writers): with a catalog error
(s3err.APIError) both SendResponse and SendXMLResponse set that entry's
HTTP status and the body is the rendered S3 error XML; with any other
error the code logs to stderr and sends the rendered InternalError
document, but it never sets the status on that path, so the status stays
at the fasthttp default 200 even though the InternalError catalog entry
carries status 500. -/
theorem C3_internal_error_status :
    (∀ (ctx : Ctx) (e : APIError),
      sendResponse ctx (some (.apiErr e)) =
        .sent e.httpStatusCode ctx.headers (apiErrorResponse e) false) ∧
    (∀ (ctx : Ctx) (payload : Option String) (e : APIError),
      sendXMLResponse ctx payload (some (.apiErr e)) =
        .sent e.httpStatusCode ctx.headers (apiErrorResponse e) false) ∧
    (getAPIError .internalError).httpStatusCode = 500 ∧
    sendResponse {} (some (.raw "backend blew up")) =
      .sent 200 [] (apiErrorResponse (getAPIError .internalError)) true ∧
    sendXMLResponse {} none (some (.raw "backend blew up")) =
      .sent 200 [] (apiErrorResponse (getAPIError .internalError)) true :=
  ⟨fun _ _ => rfl, fun _ _ _ => rfl, rfl, rfl, rfl⟩

/-- Counterexample to C4: a DeleteObjects request whose body fails to
parse as XML makes no backend call, but the handler sends no response at
all — in particular no InvalidRequest-class catalog error document: it
returns the raw Go error "wrong api call" to the HTTP framework, whose
default error handling (outside this code) produces the response. -/
theorem C4_counterexample :
    DeleteObjectsH beTriv rC1 none = ⟨[], .fiberErr "wrong api call"⟩ ∧
    (HandlerResult.fiberErr "wrong api call" ≠
      HandlerResult.sent 400 [] (apiErrorResponse (getAPIError .invalidRequest)) false) :=
  ⟨rfl, by decide⟩

/-- Claim C4 as amended: for every operation that parses an inbound XML
body (DeleteObjects with the Delete document; POST with ?restore parsing
RestoreRequest; POST with uploadId parsing the CompleteMultipartUpload
part list), a body that fails to parse makes no backend call, and the
handler returns the raw error "wrong api call" to the HTTP framework
rather than sending a catalog-error XML document itself. -/
theorem C4_xml_parse_failure (be : Backend) (r : Request)
    (rp : Option RestoreReq) (pp : Option (List Part)) :
    DeleteObjectsH be r none = ⟨[], .fiberErr "wrong api call"⟩ ∧
    (r.queryHas "restore" = true →
      CreateActions be r none pp = ⟨[], .fiberErr "wrong api call"⟩) ∧
    (r.queryHas "restore" = false → r.queryVal "uploadId" ≠ "" →
      CreateActions be r rp none = ⟨[], .fiberErr "wrong api call"⟩) := by
  refine ⟨rfl, ?_, ?_⟩
  · intro hres
    dsimp only [CreateActions]
    rw [if_pos hres]
  · intro hres hU
    dsimp only [CreateActions]
    rw [if_neg (by simp [hres]), if_pos hU]

/-- Witness for C4 (amended): the two POST parse-failure branches at a
concrete request with uploadId=U. -/
theorem C4_witness :
    DeleteObjectsH beTriv rC2 none = ⟨[], .fiberErr "wrong api call"⟩ ∧
    CreateActions beTriv rC2 none none = ⟨[], .fiberErr "wrong api call"⟩ :=
  ⟨(C4_xml_parse_failure beTriv rC2 none none).1,
    (C4_xml_parse_failure beTriv rC2 none none).2.2 (by decide) (by decide)⟩

/-- Claim C5: for every GET on /{bucket}/{key...} with non-empty uploadId:
a present (non-empty-valued) max-parts that does not parse
(strconv.Atoi) as an integer ≥ 1 yields InvalidMaxParts and no backend
call; otherwise a present part-number-marker that does not parse as an
integer ≥ 1 yields InvalidPartNumberMarker and no backend call; when both
are absent or parse as positive, each absent parameter defaults to 0 and
ListObjectParts(bucket, key, uploadId, partNumberMarker, maxParts) is
invoked. -/
theorem C5_list_parts_validation (be : Backend) (r : Request)
    (hU : r.queryVal "uploadId" ≠ "") :
    (r.queryVal "max-parts" ≠ "" →
      (∀ n : Int, atoi (r.queryVal "max-parts") = some n → n < 1) →
      GetActions be r = ⟨[], sendResponse {} (some (.apiErr (getAPIError .invalidMaxParts)))⟩) ∧
    ((r.queryVal "max-parts" = "" ∨ ∃ n, atoi (r.queryVal "max-parts") = some n ∧ 1 ≤ n) →
      r.queryVal "part-number-marker" ≠ "" →
      (∀ n : Int, atoi (r.queryVal "part-number-marker") = some n → n < 1) →
      GetActions be r =
        ⟨[], sendResponse {} (some (.apiErr (getAPIError .invalidPartNumberMarker)))⟩) ∧
    ((r.queryVal "max-parts" = "" ∨ ∃ n, atoi (r.queryVal "max-parts") = some n ∧ 1 ≤ n) →
      (r.queryVal "part-number-marker" = "" ∨
        ∃ n, atoi (r.queryVal "part-number-marker") = some n ∧ 1 ≤ n) →
      (GetActions be r).calls =
        [.listObjectParts r.rBucket (joinedKey r) (r.queryVal "uploadId")
          (queryInt r "part-number-marker" 0) (queryInt r "max-parts" 0)]) ∧
    (r.queryVal "max-parts" = "" → queryInt r "max-parts" 0 = 0) ∧
    (r.queryVal "part-number-marker" = "" → queryInt r "part-number-marker" 0 = 0) := by
  refine ⟨?_, ?_, ?_, ?_, ?_⟩
  · intro hne hall
    exact getActions_maxPartsBad be r hU ((queryInt_bad_iff r "max-parts").mpr ⟨hne, hall⟩)
  · intro hgood hne hall
    exact getActions_markerBad be r hU (queryInt_good r "max-parts" hgood)
      ((queryInt_bad_iff r "part-number-marker").mpr ⟨hne, hall⟩)
  · intro hgood1 hgood2
    rw [getActions_listParts be r hU (queryInt_good r "max-parts" hgood1)
      (queryInt_good r "part-number-marker" hgood2)]
  · intro he
    exact queryInt_eq_none r "max-parts" 0 (by rw [he]; rfl)
  · intro he
    exact queryInt_eq_none r "part-number-marker" 0 (by rw [he]; rfl)

def rC5 : Request :=
  { rBucket := "b1", rKey := "k1", rKeyEnd := "",
    queryVal := fun k => if k = "uploadId" then "U" else if k = "max-parts" then "-1" else "",
    queryHas := qhNone, headers := [], path := "/b1/k1", body := "", access := "root" }

/-- Witness for C5: GET /b1/k1?max-parts=-1&uploadId=U yields the
InvalidMaxParts catalog error (status 400) and no backend call. -/
theorem C5_witness :
    GetActions beTriv rC5 = ⟨[], sendResponse {} (some (.apiErr (getAPIError .invalidMaxParts)))⟩ := by
  apply (C5_list_parts_validation beTriv rC5 (by decide)).1 (by decide)
  intro n hn
  have h1 : atoi (rC5.queryVal "max-parts") = some (-1) := by decide
  rw [h1] at hn
  injection hn with h2
  omega

/-- Claim C10: a uploadId query parameter present with an empty value is
treated as absent, because dispatch tests `uploadId != ""` and ctx.Query
returns "" for both a missing and an empty-valued parameter: GET falls
through to the acl / attributes / GetObject ladder, DELETE calls
DeleteObject instead of AbortMultipartUpload, POST calls
CreateMultipartUpload instead of CompleteMultipartUpload, and PUT falls
past the PutObjectPart branch — while the presence-based test used for
?acl still fires on a present-but-empty acl parameter. -/
theorem C10_empty_uploadId_absent (be : Backend) (r : Request)
    (rp : Option RestoreReq) (pp : Option (List Part))
    (hU0 : r.queryVal "uploadId" = "") :
    ((r.queryHas "acl" = false → headerGet r "X-Amz-Object-Attributes" = "" →
      (GetActions be r).calls = [.getObject r.rBucket (joinedKey r) (headerGet r "Range")]) ∧
     (r.queryHas "acl" = true →
      (GetActions be r).calls = [.getObjectAcl r.rBucket (joinedKey r)])) ∧
    (DeleteActions be r).calls = [.deleteObject r.rBucket (joinedKey r)] ∧
    (r.queryHas "restore" = false →
      (CreateActions be r rp pp).calls = [.createMultipartUpload r.rBucket (joinedKey r)]) ∧
    (grantsConcat r = "" → headerGet r "X-Amz-Acl" = "" →
      headerGet r "X-Amz-Copy-Source" = "" → headerGet r "Content-Length" = "" →
      (PutActions be r).calls =
        [.putObject r.rBucket (putKeyOf r) 0 (getUserMetaData r.headers) r.body]) := by
  refine ⟨⟨?_, ?_⟩, ?_, ?_, ?_⟩
  · intro hacl hattr
    exact getActions_plain_calls be r hU0 hacl hattr
  · intro hacl
    rw [getActions_aclCall be r hU0 hacl]
  · rw [deleteActions_deleteObject be r hU0]
  · intro hres
    rw [createActions_create be r rp pp hres hU0]
  · intro hg hacl hcs hcl
    have hCL : parseContentLength (headerGet r "Content-Length") = some 0 := by
      unfold parseContentLength
      rw [hcl]
      norm_num
    rw [putActions_putCall be r 0 hCL (by simp [hU0]) hg hacl hcs]

def rC10 : Request :=
  { rBucket := "b1", rKey := "k1", rKeyEnd := "",
    queryVal := fun k => if k = "partNumber" then "5" else "",
    queryHas := fun k => k == "uploadId",
    headers := [], path := "/b1/k1", body := "xyz", access := "root" }

/-- Witness for C10: with ?uploadId= present but empty (and partNumber=5),
GET calls GetObject, DELETE calls DeleteObject, POST calls
CreateMultipartUpload, and PUT calls PutObject rather than any multipart
operation. -/
theorem C10_witness :
    (GetActions beTriv rC10).calls = [.getObject "b1" "k1" ""] ∧
    (DeleteActions beTriv rC10).calls = [.deleteObject "b1" "k1"] ∧
    (CreateActions beTriv rC10 none none).calls = [.createMultipartUpload "b1" "k1"] ∧
    (PutActions beTriv rC10).calls = [.putObject "b1" "k1" 0 [] "xyz"] := by
  have h := C10_empty_uploadId_absent beTriv rC10 none none (by decide)
  exact ⟨(h.1.1 (by decide) (by decide)).trans (by decide),
    h.2.1.trans (by decide),
    (h.2.2.1 (by decide)).trans (by decide),
    (h.2.2.2 (by decide) (by decide) (by decide) (by decide)).trans (by decide)⟩

/-! ## Split/join lemmas for the copy-source header -/

theorem splitChar_ne_nil (sep : Char) (l : List Char) : splitChar sep l ≠ [] := by
  cases l with
  | nil => exact fun h => List.noConfusion h
  | cons c cs =>
    unfold splitChar
    split
    · exact fun h => List.noConfusion h
    · split
      · exact fun h => List.noConfusion h
      · exact fun h => List.noConfusion h

theorem joinChar_cons_head (sep c : Char) (r : List Char) (rs : List (List Char)) :
    joinChar sep ((c :: r) :: rs) = c :: joinChar sep (r :: rs) := by
  cases rs with
  | nil => rfl
  | cons y ys => rfl

theorem joinChar_splitChar (sep : Char) (l : List Char) :
    joinChar sep (splitChar sep l) = l := by
  induction l with
  | nil => rfl
  | cons c cs ih =>
    unfold splitChar
    by_cases hc : c = sep
    · rw [if_pos hc, hc]
      cases hr : splitChar sep cs with
      | nil => exact absurd hr (splitChar_ne_nil sep cs)
      | cons r rs =>
        rw [hr] at ih
        show sep :: joinChar sep (r :: rs) = sep :: cs
        rw [ih]
    · rw [if_neg hc]
      cases hr : splitChar sep cs with
      | nil => exact absurd hr (splitChar_ne_nil sep cs)
      | cons r rs =>
        rw [hr] at ih
        dsimp only
        rw [joinChar_cons_head, ih]

theorem splitChar_append (sep : Char) (a b : List Char) (h : sep ∉ a) :
    splitChar sep (a ++ sep :: b) = a :: splitChar sep b := by
  induction a with
  | nil =>
    simp only [List.nil_append, splitChar]
    simp
  | cons c a' ih =>
    have hc : c ≠ sep := fun he => h (by rw [he]; exact List.mem_cons_self _ _)
    have h' : sep ∉ a' := fun hm => h (List.mem_cons_of_mem _ hm)
    simp only [List.cons_append, splitChar]
    rw [if_neg hc]
    rw [show splitChar sep (List.append a' (sep :: b)) = a' :: splitChar sep b from ih h']

theorem goJoin_goSplit (s : String) : goJoin '/' (goSplit '/' s) = s := by
  cases s with
  | mk l =>
    unfold goSplit goJoin
    rw [List.map_map]
    rw [show (String.data ∘ fun l => String.mk l) = id from rfl, List.map_id]
    rw [joinChar_splitChar]

theorem goSplit_first (sb sk : String) (h : '/' ∉ sb.data) :
    goSplit '/' (sb ++ "/" ++ sk) = sb :: goSplit '/' sk := by
  cases sb with
  | mk la =>
    cases sk with
    | mk lb =>
      unfold goSplit
      have hd : (String.mk la ++ "/" ++ String.mk lb).data = la ++ '/' :: lb := by
        show (la ++ ['/']) ++ lb = la ++ '/' :: lb
        rw [List.append_assoc]
        rfl
      rw [hd, splitChar_append _ _ _ h]
      rfl

/-- Claim C7: for every PUT on /{bucket}/{key...} with a non-empty
X-Amz-Copy-Source header, no uploadId+partNumber pair, no ACL or grant
headers (and a Content-Length that is absent or parses, value cl), the
copy-source value sb/sk — split at its first '/', i.e. sb contains no
'/' — results in exactly the backend call
CopyObject(sb, sk, bucket, reconstructedKey) and no other. -/
theorem C7_copy_source_split (be : Backend) (r : Request) (cl : Int) (sb sk : String)
    (hCL : parseContentLength (headerGet r "Content-Length") = some cl)
    (hnp : ¬ (r.queryVal "uploadId" ≠ "" ∧ r.queryVal "partNumber" ≠ ""))
    (hg : grantsConcat r = "") (hacl : headerGet r "X-Amz-Acl" = "")
    (hcs : headerGet r "X-Amz-Copy-Source" = sb ++ "/" ++ sk)
    (hsb : '/' ∉ sb.data) :
    (PutActions be r).calls = [.copyObject sb sk r.rBucket (putKeyOf r)] := by
  have hne : headerGet r "X-Amz-Copy-Source" ≠ "" := by
    rw [hcs]
    intro hc
    rcases (string_append_eq_empty_iff _ _).mp hc with ⟨h1, _⟩
    rcases (string_append_eq_empty_iff _ _).mp h1 with ⟨_, h2⟩
    exact absurd h2 (by decide)
  rw [putActions_copyCall be r cl hCL hnp hg hacl hne, hcs, goSplit_first sb sk hsb]
  dsimp only [List.headD, List.tail]
  rw [goJoin_goSplit]

def rC7 : Request :=
  { rBucket := "b1", rKey := "k1", rKeyEnd := "", queryVal := qNone, queryHas := qhNone,
    headers := [("X-Amz-Copy-Source", "src/obj/sub")], path := "/b1/k1", body := "",
    access := "root" }

/-- Witness for C7: PUT /b1/k1 with X-Amz-Copy-Source: src/obj/sub invokes
exactly CopyObject("src", "obj/sub", "b1", "k1"). -/
theorem C7_witness :
    (PutActions beTriv rC7).calls = [.copyObject "src" "obj/sub" "b1" "k1"] :=
  (C7_copy_source_split beTriv rC7 0 "src" "obj/sub" (by decide) (by decide) (by decide)
    (by decide) (by decide) (by decide)).trans (by decide)

/-! ## Trailing-slash analysis -/

/-- The destination object key of a PUT-family backend call, if any. -/
def putCallDestKey : BackendCall → Option String
  | .putObjectPart _ k _ _ _ _ => some k
  | .putObjectAcl _ k _ _ _ _ _ _ => some k
  | .copyObject _ _ _ k => some k
  | .putObject _ k _ _ _ => some k
  | _ => none

theorem putActions_objAclCall (be : Backend) (r : Request) (cl : Int)
    (hCL : parseContentLength (headerGet r "Content-Length") = some cl)
    (hnp : ¬ (r.queryVal "uploadId" ≠ "" ∧ r.queryVal "partNumber" ≠ ""))
    (hga : grantsConcat r ≠ "" ∨ headerGet r "X-Amz-Acl" ≠ "")
    (hnboth : ¬ (grantsConcat r ≠ "" ∧ headerGet r "X-Amz-Acl" ≠ "")) :
    PutActions be r =
      ⟨[.putObjectAcl r.rBucket (putKeyOf r) (headerGet r "X-Amz-Acl")
          (headerGet r "X-Amz-Grant-Full-Control") (headerGet r "X-Amz-Grant-Read")
          (headerGet r "X-Amz-Grant-Read-Acp") (headerGet r "X-Amz-Grant-Write")
          (headerGet r "X-Amz-Grant-Write-Acp")],
        sendResponse {}
          (be.putObjectAcl r.rBucket (putKeyOf r) (headerGet r "X-Amz-Acl")
            (headerGet r "X-Amz-Grant-Full-Control") (headerGet r "X-Amz-Grant-Read")
            (headerGet r "X-Amz-Grant-Read-Acp") (headerGet r "X-Amz-Grant-Write")
            (headerGet r "X-Amz-Grant-Write-Acp"))⟩ := by
  dsimp only [PutActions]
  rw [hCL]
  dsimp only
  rw [if_neg hnp, if_pos hga, if_neg hnboth]

/-- Every PUT-family backend call that PutActions makes uses the
reconstructed (fix-up applied) key as its destination key. -/
theorem putActions_destKey (be : Backend) (r : Request) :
    ∀ c ∈ (PutActions be r).calls, ∀ k, putCallDestKey c = some k → k = putKeyOf r := by
  by_cases hCLn : parseContentLength (headerGet r "Content-Length") = none
  · rw [putActions_clErr be r hCLn]
    intro c hc
    simp at hc
  · obtain ⟨cl, hCL⟩ := Option.ne_none_iff_exists'.mp hCLn
    by_cases hUP : r.queryVal "uploadId" ≠ "" ∧ r.queryVal "partNumber" ≠ ""
    · by_cases hpn : queryInt r "partNumber" (-1) < 1
      · rw [putActions_partBad be r cl hCL hUP.1 hUP.2 hpn]
        intro c hc
        simp at hc
      · rw [putActions_partCall be r cl hCL hUP.1 hUP.2 hpn]
        intro c hc k hk
        simp only [List.mem_singleton] at hc
        subst hc
        simp only [putCallDestKey, Option.some.injEq] at hk
        exact hk.symm
    · by_cases hga : grantsConcat r ≠ "" ∨ headerGet r "X-Amz-Acl" ≠ ""
      · by_cases hboth : grantsConcat r ≠ "" ∧ headerGet r "X-Amz-Acl" ≠ ""
        · rw [putActions_aclBoth be r cl hCL hUP hboth.1 hboth.2]
          intro c hc
          simp at hc
        · rw [putActions_objAclCall be r cl hCL hUP hga hboth]
          intro c hc k hk
          simp only [List.mem_singleton] at hc
          subst hc
          simp only [putCallDestKey, Option.some.injEq] at hk
          exact hk.symm
      · push_neg at hga
        by_cases hcs : headerGet r "X-Amz-Copy-Source" ≠ ""
        · rw [putActions_copyCall be r cl hCL hUP hga.1 hga.2 hcs]
          intro c hc k hk
          simp only [List.mem_singleton] at hc
          subst hc
          simp only [putCallDestKey, Option.some.injEq] at hk
          exact hk.symm
        · push_neg at hcs
          rw [putActions_putCall be r cl hCL hUP hga.1 hga.2 hcs]
          intro c hc k hk
          simp only [List.mem_singleton] at hc
          subst hc
          simp only [putCallDestKey, Option.some.injEq] at hk
          exact hk.symm

theorem endsWithSlash_append_slash (s : String) : endsWithSlash (s ++ "/") := by
  cases s with
  | mk l =>
    show (l ++ ['/']).getLast? = some '/'
    exact List.getLast?_concat _

theorem endsWithSlash_putKeyOf (r : Request) (hslash : endsWithSlash r.path) :
    endsWithSlash (putKeyOf r) := by
  unfold putKeyOf
  by_cases h : endsWithSlash r.path ∧ ¬ endsWithSlash (joinedKey r)
  · rw [if_pos h]
    exact endsWithSlash_append_slash _
  · rw [if_neg h]
    by_contra hk
    exact h ⟨hslash, hk⟩

def rC6get : Request :=
  { rBucket := "b1", rKey := "k1", rKeyEnd := "", queryVal := qNone, queryHas := qhNone,
    headers := [], path := "/b1/k1/", body := "", access := "root" }

def rC6put : Request :=
  { rBucket := "b1", rKey := "k1", rKeyEnd := "", queryVal := qNone, queryHas := qhNone,
    headers := [], path := "/b1/k1/", body := "", access := "root" }

/-- Counterexample to C6: for GET /b1/k1/ — a URL path ending in '/' —
the router (modelled from the spec) extracts key "k1" with an empty
wildcard tail, GetActions applies no trailing-slash fix-up, and the
backend is called with key "k1", which does not end in '/'. -/
theorem C6_counterexample :
    routeParams "/b1/k1/" = some ("b1", "k1", "") ∧
    endsWithSlash rC6get.path ∧
    (GetActions beTriv rC6get).calls = [.getObject "b1" "k1" ""] ∧
    ¬ endsWithSlash "k1" := by
  refine ⟨by decide, by decide, ?_, by decide⟩
  exact (getActions_plain_calls beTriv rC6get (by decide) (by decide) (by decide)).trans
    (by decide)

/-- Claim C6 as amended: PutActions applies an explicit trailing-slash
fix-up, so for every PUT on /{bucket}/{key...} whose URL path ends in '/'
the destination key of every backend call ends in '/'; the other object
handlers have no fix-up, so a lone trailing slash after a single-segment
key is dropped (GET /b1/k1/ reaches the backend with key "k1"). -/
theorem C6_trailing_slash (be : Backend) (r : Request)
    (_hkey : r.rKey ≠ "") (hslash : endsWithSlash r.path) :
    endsWithSlash (putKeyOf r) ∧
    (∀ c ∈ (PutActions be r).calls, ∀ k, putCallDestKey c = some k → endsWithSlash k) ∧
    (GetActions beTriv rC6get).calls = [.getObject "b1" "k1" ""] ∧
    ¬ endsWithSlash "k1" := by
  have hput := endsWithSlash_putKeyOf r hslash
  refine ⟨hput, ?_, ?_, by decide⟩
  · intro c hc k hk
    rw [putActions_destKey be r c hc k hk]
    exact hput
  · exact (getActions_plain_calls beTriv rC6get (by decide) (by decide) (by decide)).trans
      (by decide)

/-- Witness for C6 (amended): PUT /b1/k1/ produces a key ending in '/'
(the backend receives PutObject with key "k1/"), while GET /b1/k1/
drops the slash. -/
theorem C6_witness :
    endsWithSlash (putKeyOf rC6put) ∧
    (GetActions beTriv rC6get).calls = [.getObject "b1" "k1" ""] :=
  ⟨(C6_trailing_slash beTriv rC6put (by decide) (by decide)).1,
    (C6_trailing_slash beTriv rC6put (by decide) (by decide)).2.2.1⟩

/-! ## Last-Modified header -/

theorem headObject_success (be : Backend) (r : Request) (o : GetObjectOutput)
    (h : be.headObject r.rBucket (joinedKey r) = (some o, none)) :
    HeadObject be r =
      ⟨[.headObject r.rBucket (joinedKey r)],
        sendResponse { headers := metaHeaders o.metadata ++ stdHeaders o } none⟩ := by
  dsimp only [HeadObject]
  rw [h]

theorem getActions_getObject_success (be : Backend) (r : Request) (o : GetObjectOutput)
    (hU0 : r.queryVal "uploadId" = "") (hacl : r.queryHas "acl" = false)
    (hattr : headerGet r "X-Amz-Object-Attributes" = "")
    (h : be.getObject r.rBucket (joinedKey r) (headerGet r "Range") = (some o, none)) :
    GetActions be r =
      ⟨[.getObject r.rBucket (joinedKey r) (headerGet r "Range")],
        .sent 200 (metaHeaders o.metadata ++ stdHeaders o) "" false⟩ := by
  dsimp only [GetActions]
  rw [if_neg (by simp [hU0]), if_neg (by simp [hacl]), if_neg (by simp [hattr]), h]

theorem lastModified_mem_stdHeaders_some (o : GetObjectOutput) (t : GoTime)
    (ht : o.lastModified = some t) :
    ("Last-Modified", formatTimefmt t) ∈ stdHeaders o := by
  unfold stdHeaders
  rw [ht]
  simp

theorem lastModified_mem_stdHeaders_none (o : GetObjectOutput)
    (ht : o.lastModified = none) :
    ("Last-Modified", "") ∈ stdHeaders o := by
  unfold stdHeaders
  rw [ht]
  simp

/-- Claim C8 as amended: on every successful GetObject and HeadObject
response the Last-Modified header is formatted exactly per the layout
Mon, 02 Jan 2006 15:04:05 GMT when the backend provides a timestamp; when
the backend's LastModified is nil the header is still written, with an
empty value (present, not absent), since the header codec writes nullable
fields as empty strings to preserve header presence. -/
theorem C8_last_modified (be : Backend) (r : Request) (o : GetObjectOutput) :
    (be.headObject r.rBucket (joinedKey r) = (some o, none) →
      (∀ t, o.lastModified = some t →
        ("Last-Modified", formatTimefmt t) ∈ headersOf (HeadObject be r).result) ∧
      (o.lastModified = none →
        ("Last-Modified", "") ∈ headersOf (HeadObject be r).result)) ∧
    (be.getObject r.rBucket (joinedKey r) (headerGet r "Range") = (some o, none) →
      r.queryVal "uploadId" = "" → r.queryHas "acl" = false →
      headerGet r "X-Amz-Object-Attributes" = "" →
      (∀ t, o.lastModified = some t →
        ("Last-Modified", formatTimefmt t) ∈ headersOf (GetActions be r).result) ∧
      (o.lastModified = none →
        ("Last-Modified", "") ∈ headersOf (GetActions be r).result)) := by
  constructor
  · intro h
    rw [headObject_success be r o h]
    dsimp only
    rw [headersOf_sendResponse]
    constructor
    · intro t ht
      exact List.mem_append_right _ (lastModified_mem_stdHeaders_some o t ht)
    · intro ht
      exact List.mem_append_right _ (lastModified_mem_stdHeaders_none o ht)
  · intro h hU0 hacl hattr
    rw [getActions_getObject_success be r o hU0 hacl hattr h]
    dsimp only [headersOf]
    constructor
    · intro t ht
      exact List.mem_append_right _ (lastModified_mem_stdHeaders_some o t ht)
    · intro ht
      exact List.mem_append_right _ (lastModified_mem_stdHeaders_none o ht)

def headOutC8 : GetObjectOutput :=
  { metadata := [], contentLength := 5, contentType := some "text/plain",
    contentEncoding := none, etag := some "abc123", lastModified := none }

def beC8 : Backend := { beTriv with headObject := fun _ _ => (some headOutC8, none) }

def rC8 : Request :=
  { rBucket := "b1", rKey := "k1", rKeyEnd := "", queryVal := qNone, queryHas := qhNone,
    headers := [], path := "/b1/k1", body := "", access := "root" }

/-- Counterexample to C8: a successful HeadObject response whose backend
LastModified is nil still carries a Last-Modified response header — the
codec writes it with an empty value — so the header is present, not
absent as the claim states. -/
theorem C8_counterexample :
    headOutC8.lastModified = none ∧
    ("Last-Modified", "") ∈ headersOf (HeadObject beC8 rC8).result :=
  ⟨rfl, by decide⟩

def tC8 : GoTime :=
  { weekday := 1, day := 2, month := 0, year := 2006, hour := 15, minute := 4, second := 5 }

def headOutC8b : GetObjectOutput := { headOutC8 with lastModified := some tC8 }

def beC8b : Backend := { beTriv with headObject := fun _ _ => (some headOutC8b, none) }

/-- Witness for C8 (amended): a backend timestamp renders exactly as
Mon, 02 Jan 2006 15:04:05 GMT in the Last-Modified header of a HeadObject
response. -/
theorem C8_witness :
    formatTimefmt tC8 = "Mon, 02 Jan 2006 15:04:05 GMT" ∧
    ("Last-Modified", "Mon, 02 Jan 2006 15:04:05 GMT") ∈
      headersOf (HeadObject beC8b rC8).result := by
  have h := ((C8_last_modified beC8b rC8 headOutC8b).1 rfl).1 tC8 rfl
  have he : formatTimefmt tC8 = "Mon, 02 Jan 2006 15:04:05 GMT" := by decide
  rw [he] at h
  exact ⟨he, h⟩

end Versity
